import Mathlib

/-!
Verification development for the Tokopedia review scraper
(`tokped-reviews-scraper.py`).

The Python source is shallowly embedded below:

* `convert_relative_date` — the pure date normalizer (source lines 46-80).
  `datetime.now()` is modelled as an integer day number `now` (days since
  1970-01-01); `timedelta` subtraction of whole days is exact day
  arithmetic on that number, and `strftime("%Y-%m-%d")` is `formatDate`
  via the standard civil-from-days calendar algorithm.  Python `datetime`
  is restricted to years 1..9999; an out-of-range result raises
  `OverflowError`, which the function's `except Exception` catches and
  turns into "return the original string" — modelled by the range guard
  in `finishDate`.  Every other exception of the body (`ValueError` from
  `int`, `IndexError` from `[0]`) is modelled by an `Option` that falls
  back to the original string, exactly as the `try/except` does.
* `extract_reviews_from_page` (lines 82-111) over a parsed page snapshot:
  a list of `Container`s, one per `article.css-15m2bcr` element, each
  carrying the optional pieces of DOM the four field lookups read.  The
  rating parse `int(aria.split()[-1])` is *outside* any `try`, so its
  failure aborts the whole extraction: the embedding returns `Option`,
  `none` modelling the uncaught exception.
* `get_last_page_number` (lines 113-121) over the list of pagination
  button labels.
* `click_all_expand_buttons` (lines 29-44) and the orchestrator
  `scrape_reviews` (lines 123-156) as trace-producing functions over an
  environment oracle that fixes the outcome of each browser interaction;
  the emitted event list records navigation, waits, clicks, the single
  CSV write and the browser close, and the `Except` outcome records
  which exception (if any) escapes, mirroring Python control flow.

ASCII note: Python `str.lower`, `str.isdigit`, `int()` and `\d`/`\s`
also accept some non-ASCII characters; the embedding models the ASCII
behaviour (all strings the scraper meets, and all claims, are ASCII).
`int()` additionally allows `_` digit separators, not modelled.
-/

/-- Python `str.lower()` (ASCII). -/
def pyLower (s : String) : String := String.mk (s.toList.map Char.toLower)

/-- `leadsWith n h` iff `n` is an initial segment of `h`. -/
def leadsWith : List Char → List Char → Bool
  | [], _ => true
  | _ :: _, [] => false
  | a :: as, b :: bs => a == b && leadsWith as bs

/-- Substring occurrence on character lists. -/
def containsL (needle : List Char) : List Char → Bool
  | [] => needle.isEmpty
  | b :: bs => leadsWith needle (b :: bs) || containsL needle bs

/-- Python `needle in hay` for strings (substring containment). -/
def containsSub (needle hay : String) : Bool := containsL needle.toList hay.toList

/-- Helper for `pySplit`: accumulate the current word (reversed). -/
def splitWsAux : List Char → List Char → List String
  | [], acc => if acc.isEmpty then [] else [String.mk acc.reverse]
  | c :: cs, acc =>
    if c.isWhitespace then
      if acc.isEmpty then splitWsAux cs []
      else String.mk acc.reverse :: splitWsAux cs []
    else splitWsAux cs (c :: acc)

/-- Python `str.split()` with no argument: split on whitespace runs,
no empty tokens. -/
def pySplit (s : String) : List String := splitWsAux s.toList []

/-- Drop leading whitespace. -/
def skipWs : List Char → List Char
  | [] => []
  | c :: cs => if c.isWhitespace then skipWs cs else c :: cs

/-- Split off the maximal leading run of ASCII digits. -/
def takeDigits : List Char → List Char × List Char
  | [] => ([], [])
  | c :: cs =>
    if c.isDigit then
      let (ds, rest) := takeDigits cs
      (c :: ds, rest)
    else ([], c :: cs)

/-- Numeric value of a digit list (most significant first). -/
def natFromDigits (ds : List Char) : Nat :=
  ds.foldl (fun a c => a * 10 + (c.toNat - '0'.toNat)) 0

/-- Python `int(s)`: optional surrounding whitespace, optional sign, one
or more digits; anything else raises `ValueError`, modelled as `none`. -/
def pyInt (s : String) : Option Int :=
  let cs := skipWs s.toList
  let (neg, cs') :=
    match cs with
    | '-' :: r => (true, r)
    | '+' :: r => (false, r)
    | _ => (false, cs)
  let (ds, rest) := takeDigits cs'
  if ds.isEmpty then none
  else if (skipWs rest).isEmpty then
    some (if neg then -(natFromDigits ds : Int) else (natFromDigits ds : Int))
  else none

/-- Match a literal character sequence, returning the remainder. -/
def dropLit : List Char → List Char → Option (List Char)
  | [], rest => some rest
  | _ :: _, [] => none
  | a :: as, b :: bs => if a == b then dropLit as bs else none

/-- Attempt the regex `lebih\s*dar[ai]\s*(\d+)` anchored at the head of
`cs`; on success return the captured number. -/
def matchLebihAt (cs : List Char) : Option Nat :=
  match dropLit "lebih".toList cs with
  | none => none
  | some r1 =>
    match dropLit "dar".toList (skipWs r1) with
    | none => none
    | some r3 =>
      match r3 with
      | [] => none
      | c :: r4 =>
        if c == 'a' || c == 'i' then
          let (ds, _) := takeDigits (skipWs r4)
          if ds.isEmpty then none else some (natFromDigits ds)
        else none

/-- `re.search(r"lebih\s*dar[ai]\s*(\d+)", ·)`: leftmost match, captured
number.  (The character classes `\s`, `\d` are disjoint from the literal
parts, so greedy scanning without backtracking is the exact semantics.) -/
def searchLebih : List Char → Option Nat
  | [] => none
  | c :: cs =>
    match matchLebihAt (c :: cs) with
    | some n => some n
    | none => searchLebih cs

/-- Civil date from day number (days since 1970-01-01), standard
era/year-of-era algorithm; all divisors are positive so `Int.ediv` is
floor division. Returns `(year, month, day)`. -/
def civilFromDays (z : Int) : Int × Int × Int :=
  let z' := z + 719468
  let era := Int.ediv z' 146097
  let doe := z' - era * 146097
  let yoe := Int.ediv (doe - Int.ediv doe 1460 + Int.ediv doe 36524 - Int.ediv doe 146096) 365
  let y := yoe + era * 400
  let doy := doe - (365 * yoe + Int.ediv yoe 4 - Int.ediv yoe 100)
  let mp := Int.ediv (5 * doy + 2) 153
  let d := doy - Int.ediv (153 * mp + 2) 5 + 1
  let m := if mp < 10 then mp + 3 else mp - 9
  (if m ≤ 2 then y + 1 else y, m, d)

/-- Day number (days since 1970-01-01) of a civil date. -/
def daysFromCivil (y m d : Int) : Int :=
  let y' := if m ≤ 2 then y - 1 else y
  let era := Int.ediv y' 400
  let yoe := y' - era * 400
  let mp := if 2 < m then m - 3 else m + 9
  let doy := Int.ediv (153 * mp + 2) 5 + d - 1
  let doe := yoe * 365 + Int.ediv yoe 4 - Int.ediv yoe 100 + doy
  era * 146097 + doe - 719468

/-- Day number of `datetime.min.date()` = 0001-01-01. -/
def minDay : Int := daysFromCivil 1 1 1

/-- Day number of `datetime.max.date()` = 9999-12-31. -/
def maxDay : Int := daysFromCivil 9999 12 31

/-- Zero-pad to two digits. -/
def pad2 (n : Int) : String := if n < 10 then "0" ++ toString n else toString n

/-- Zero-pad to four digits. -/
def pad4 (n : Int) : String :=
  if n < 10 then "000" ++ toString n
  else if n < 100 then "00" ++ toString n
  else if n < 1000 then "0" ++ toString n
  else toString n

/-- `strftime("%Y-%m-%d")` of the day number `z`. -/
def formatDate (z : Int) : String :=
  let c := civilFromDays z
  pad4 c.1 ++ "-" ++ pad2 c.2.1 ++ "-" ++ pad2 c.2.2

/-- Final step of a recognized branch of `convert_relative_date`: the
computed date is rendered when it lies in `datetime`'s year range
1..9999; otherwise the `OverflowError` is caught and the original
string is returned. -/
def finishDate (z : Int) (orig : String) : String :=
  if minDay ≤ z ∧ z ≤ maxDay then formatDate z else orig

/-- The branch dispatch of `convert_relative_date` (source lines 55-77)
on the lowercased input `rd`: `some k` means the branch computes
`now - timedelta(days := k)`; `none` means either no pattern matched
(the `else: return relative_date` on line 77) or `int()`/indexing raised
inside the branch and the `except` returns the original (lines 79-80).
Branch order and conditions are the `if/elif` chain verbatim. -/
def daysAgo (rd : String) : Option Int :=
  if containsSub "hari ini" rd then some 0
  else if containsSub "kemarin" rd then some 1
  else if containsSub "hari" rd && !containsSub "hari ini" rd then
    ((pySplit rd).head?.bind pyInt).map (fun days => days)
  else if containsSub "minggu" rd then
    ((pySplit rd).head?.bind pyInt).map (fun weeks => weeks * 7)
  else if containsSub "bulan" rd then
    ((pySplit rd).head?.bind pyInt).map (fun months => months * 30)
  else if containsSub "tahun" rd then
    if containsSub "lebih dari" rd then
      let years : Int :=
        match searchLebih rd.toList with
        | some n => (n : Int)
        | none => 1
      some (years * 365)
    else ((pySplit rd).head?.bind pyInt).map (fun years => years * 365)
  else none

/-- `convert_relative_date` (source lines 46-80), with `datetime.now()`
passed in as the day number `now`. -/
def convert_relative_date (now : Int) (relative_date : String) : String :=
  match daysAgo (pyLower relative_date) with
  | some k => finishDate (now - k) relative_date
  | none => relative_date

/-- One `article.css-15m2bcr` review container of a page snapshot.  Each
field is the piece of DOM the corresponding lookup in
`extract_reviews_from_page` reads, `none` when the element is absent:
`starAria` is the `aria-label` of the `div[data-testid=icnStarRating]`
(a div present but lacking the attribute carries `some ""`, since
`.get('aria-label', '')` defaults to `''`), the other three are the
stripped text of the date/name/body elements. -/
structure Container where
  starAria : Option String
  dateText : Option String
  nameText : Option String
  bodyText : Option String
deriving DecidableEq, Repr

/-- One output record (the dict literal on source line 108). -/
structure Review where
  name : String
  rating : Int
  date : String
  text : String
deriving DecidableEq, Repr

/-- Source line 96: `rating = int(aria.split()[-1]) if 'bintang' in aria
else 0`.  `none` models an uncaught exception: `ValueError` when the
final token is not an integer (or `IndexError` on an empty split, which
cannot occur when `'bintang' in aria`). -/
def ratingOfAria (aria : String) : Option Int :=
  if containsSub "bintang" aria then
    match (pySplit aria).getLast? with
    | some tok => pyInt tok
    | none => none
  else some 0

/-- The loop body of `extract_reviews_from_page` for one container
(source lines 93-108).  The rating is computed first; its uncaught
exception (`none`) aborts the record.  The other three lookups default
to `"N/A"` when the element is absent, and the date text is passed
through `convert_relative_date`. -/
def extractRecord (now : Int) (c : Container) : Option Review :=
  (ratingOfAria (c.starAria.getD "")).map (fun rating =>
    { name := c.nameText.getD "N/A"
      rating := rating
      date := convert_relative_date now (c.dateText.getD "N/A")
      text := c.bodyText.getD "N/A" })

/-- `extract_reviews_from_page` (source lines 82-111) on the parsed
snapshot: one record appended per container in document order; an
exception in any iteration propagates and discards everything (`none`). -/
def extract_reviews_from_page (now : Int) (articles : List Container) :
    Option (List Review) :=
  match articles with
  | [] => some []
  | a :: rest =>
    match extractRecord now a with
    | none => none
    | some r =>
      match extract_reviews_from_page now rest with
      | none => none
      | some rs => some (r :: rs)

/-- Total variant of `extractRecord`, defined on well-formed containers
(where the rating parse cannot raise); used to state what the records
are when extraction succeeds. -/
def recordTotal (now : Int) (c : Container) : Review :=
  { name := c.nameText.getD "N/A"
    rating := (ratingOfAria (c.starAria.getD "")).getD 0
    date := convert_relative_date now (c.dateText.getD "N/A")
    text := c.bodyText.getD "N/A" }

/-- A container is well-formed when its rating lookup does not raise:
either the star element is absent, or its label lacks `'bintang'`, or
the label's final token parses as an integer. -/
def wellFormedC (c : Container) : Prop :=
  (ratingOfAria (c.starAria.getD "")).isSome = true

instance (c : Container) : Decidable (wellFormedC c) := by
  unfold wellFormedC
  infer_instance

/-- Python `str.isdigit()` (ASCII): nonempty and all digits. -/
def pyIsDigit (s : String) : Bool :=
  !s.toList.isEmpty && s.toList.all Char.isDigit

/-- Source line 120: the numeric page-button labels, parsed. -/
def numericLabels (labels : List String) : List Int :=
  labels.filterMap (fun s => if pyIsDigit s then some ((natFromDigits s.toList : Nat) : Int) else none)

/-- `get_last_page_number` (source lines 113-121) on the list of
pagination-button label texts: `max(nums) if nums else 1`. -/
def get_last_page_number (labels : List String) : Int :=
  match numericLabels labels with
  | [] => 1
  | n :: rest => rest.foldl max n

/-- Events of the expand-button loop: a successful click (followed in
the trace by the 200ms settle sleep), or a click whose exception was
swallowed by the `except Exception: continue`. -/
inductive ClickEv where
  | clicked (i : Nat)
  | failedSwallowed (i : Nat)
  | settleSleep
deriving DecidableEq, Repr

/-- Environment of `click_all_expand_buttons`: whether
`button.css-89c2tx` appeared within the 500ms wait, and — for each
button the xpath query collected, in order — whether its `.click()`
succeeds. -/
structure ExpandEnv where
  appeared : Bool
  clicks : List Bool
deriving DecidableEq, Repr

/-- The `for btn in buttons` loop of `click_all_expand_buttons`
(source lines 39-44), numbering buttons from `i`: a failing click is
swallowed (`continue`) and the loop always proceeds to the next button. -/
def expandLoop : List Bool → Nat → List ClickEv
  | [], _ => []
  | ok :: rest, i =>
    (if ok then [ClickEv.clicked i, ClickEv.settleSleep]
     else [ClickEv.failedSwallowed i]) ++ expandLoop rest (i + 1)

/-- `click_all_expand_buttons` (source lines 29-44): if the 500ms wait
for `button.css-89c2tx` times out, return immediately (no clicks);
otherwise click every collected button in turn. -/
def click_all_expand_buttons (env : ExpandEnv) : List ClickEv :=
  if env.appeared then expandLoop env.clicks 0 else []

/-- The index a click event attempted, if any. -/
def attemptedIdx : ClickEv → Option Nat
  | ClickEv.clicked i => some i
  | ClickEv.failedSwallowed i => some i
  | ClickEv.settleSleep => none

/-- Page processing as the source performs it: expansion clicks happen
first (their failures swallowed), then the snapshot is parsed and the
containers extracted; the extraction result does not depend on the
click outcomes. -/
def processPageSnapshot (now : Int) (eenv : ExpandEnv)
    (articles : List Container) : List ClickEv × Option (List Review) :=
  (click_all_expand_buttons eenv, extract_reviews_from_page now articles)

/-- Exceptions that can escape `scrape_reviews`: a pyppeteer timeout on
a mandatory 10s wait, `KeyboardInterrupt`, or the `ValueError` of a
malformed rating label. -/
inductive PyErr where
  | timeout
  | keyboardInterrupt
  | valueError
deriving DecidableEq, Repr

/-- Observable events of the orchestrator `scrape_reviews`. -/
inductive Ev where
  | goto
  | reload
  | waitSel (sel : String) (ok : Bool)
  | clickSel (sel : String)
  | sleep
  | writeCsv (rows : List (List String))
  | close
deriving DecidableEq, Repr

/-- Environment oracle for one run of `scrape_reviews`: whether the
initial mandatory wait for `article.css-15m2bcr` succeeds, the
pagination-button labels the bound discovery sees, whether the
`Laman p` button appears within its 10s wait, the containers parsed
from each page's snapshot, the day number of `datetime.now()`, and —
modelling an external interrupt — the page index (if any) at whose
processing a `KeyboardInterrupt` is delivered. -/
structure Env where
  initOk : Bool
  pageLabels : List String
  pageBtnOk : Nat → Bool
  pageArticles : Nat → List Container
  now : Int
  interruptAt : Option Nat

/-- The row a `csv.DictWriter` emits for one record, fields in the
fixed order `name, rating, date, text` (source line 151). -/
def rowOf (r : Review) : List String :=
  [r.name, toString r.rating, r.date, r.text]

/-- The full CSV content: header row then one row per record. -/
def csvRows (reviews : List Review) : List (List String) :=
  ["name", "rating", "date", "text"] :: reviews.map rowOf

/-- The aria-label selector of the page-`p` button. -/
def lamanSel (p : Nat) : String := "button[aria-label=Laman " ++ toString p ++ "]"

/-- The `for pg in range(1, last + 1)` loop of `scrape_reviews`
(source lines 140-148), over the remaining page indices: for `pg > 1`
wait for the `Laman pg` button (10s, fatal on timeout), click it and
sleep 0.7s, then extract the page and extend the accumulator.  An
exception anywhere stops the loop and propagates; a `KeyboardInterrupt`
scheduled for this page is delivered at its start.  Returns the events
emitted and either the accumulated reviews or the escaping exception. -/
def pagesLoop (env : Env) : List Nat → List Review →
    List Ev × Except PyErr (List Review)
  | [], acc => ([], Except.ok acc)
  | p :: rest, acc =>
    if env.interruptAt = some p then ([], Except.error PyErr.keyboardInterrupt)
    else if p = 1 then
      match extract_reviews_from_page env.now (env.pageArticles p) with
      | none => ([], Except.error PyErr.valueError)
      | some rs => pagesLoop env rest (acc ++ rs)
    else
      if env.pageBtnOk p then
        match extract_reviews_from_page env.now (env.pageArticles p) with
        | none => ([Ev.waitSel (lamanSel p) true, Ev.clickSel (lamanSel p), Ev.sleep],
                   Except.error PyErr.valueError)
        | some rs =>
          (Ev.waitSel (lamanSel p) true :: Ev.clickSel (lamanSel p) :: Ev.sleep ::
             (pagesLoop env rest (acc ++ rs)).1,
           (pagesLoop env rest (acc ++ rs)).2)
      else ([Ev.waitSel (lamanSel p) false], Except.error PyErr.timeout)

/-- The page indices of the run, `range(1, last + 1)` with the bound
discovered from the pagination labels (source lines 137-140). -/
def pageIdxs (env : Env) : List Nat :=
  List.range' 1 (get_last_page_number env.pageLabels).toNat

/-- Events of the successful initial load: navigate, reload, wait. -/
def preEvs : List Ev := [Ev.goto, Ev.reload, Ev.waitSel "article.css-15m2bcr" true]

/-- `scrape_reviews` (source lines 123-156): navigate, reload, wait for
the first review container (10s, fatal on timeout), discover the page
bound, run the page loop, then — only if everything succeeded — write
the CSV (header plus all accumulated rows) and close the browser.  The
source has no `try/finally`: an escaping exception reaches the caller
with the browser still open and nothing written; `KeyboardInterrupt` is
caught only in `__main__`, which logs and exits without closing. -/
def scrape_reviews (env : Env) : List Ev × Except PyErr Unit :=
  if env.initOk then
    match (pagesLoop env (pageIdxs env) []).2 with
    | Except.error e => (preEvs ++ (pagesLoop env (pageIdxs env) []).1, Except.error e)
    | Except.ok reviews =>
      (preEvs ++ (pagesLoop env (pageIdxs env) []).1 ++
         [Ev.writeCsv (csvRows reviews), Ev.close],
       Except.ok ())
  else
    ([Ev.goto, Ev.reload, Ev.waitSel "article.css-15m2bcr" false],
     Except.error PyErr.timeout)

/-- The CSV writes occurring in a trace. -/
def writesOf (tr : List Ev) : List (List (List String)) :=
  tr.filterMap (fun e => match e with | Ev.writeCsv rows => some rows | _ => none)

/-- A run whose initial mandatory wait for `article.css-15m2bcr` times
out after 10s (the fatal condition of source line 135). -/
def envTimeout : Env :=
  { initOk := false
    pageLabels := ["1", "2"]
    pageBtnOk := fun _ => true
    pageArticles := fun _ => [⟨some "bintang 5", some "kemarin", some "Budi", some "Bagus"⟩]
    now := 20000
    interruptAt := none }

/-- A run interrupted by the user (`KeyboardInterrupt`) while page 2 is
being processed. -/
def envInterrupted : Env :=
  { initOk := true
    pageLabels := ["1", "2"]
    pageBtnOk := fun _ => true
    pageArticles := fun _ => [⟨some "bintang 5", some "kemarin", some "Budi", some "Bagus"⟩]
    now := 20000
    interruptAt := some 2 }

/-- A run that completes normally: two pages, one review each. -/
def envSuccess : Env :=
  { initOk := true
    pageLabels := ["1", "2"]
    pageBtnOk := fun _ => true
    pageArticles := fun _ => [⟨some "bintang 5", some "kemarin", some "Budi", some "Bagus"⟩]
    now := 20000
    interruptAt := none }

/-! ### Theorems -/

/-- **C1.** The date normalizer is total: for every input string (and
every current day `now`), `convert_relative_date` returns either the
`YYYY-MM-DD` rendering of some representable day, or the original input
string unchanged — never anything else.  (Raising is impossible by
construction: every exception of the Python body — `ValueError`,
`IndexError`, `OverflowError` — is modelled by the `Option`/range
fall-through into the pass-through result, exactly as the
`try/except Exception` of the source catches them.) -/
theorem c1_normalize_total (now : Int) (s : String) :
    (∃ z : Int, minDay ≤ z ∧ z ≤ maxDay ∧
        convert_relative_date now s = formatDate z) ∨
    convert_relative_date now s = s := by
  unfold convert_relative_date
  cases hda : daysAgo (pyLower s) with
  | none => right; rfl
  | some k =>
    by_cases hr : minDay ≤ now - k ∧ now - k ≤ maxDay
    · left
      refine ⟨now - k, hr.1, hr.2, ?_⟩
      show finishDate (now - k) s = formatDate (now - k)
      unfold finishDate
      rw [if_pos hr]
    · right
      show finishDate (now - k) s = s
      unfold finishDate
      rw [if_neg hr]

/-- **C5.** Recognized-pattern round trips: `"2 hari lalu"` maps to
`now − 2` days, `"kemarin"` to `now − 1`, `"lebih dari 3 tahun lalu"`
to `now − 3·365 = now − 1095`, each rendered `YYYY-MM-DD`, and the
unrecognized `"minggu depan"` is returned unchanged (its head token
`"minggu"` fails `int()`, and the `except` returns the original).  The
range hypotheses state that the computed dates are representable, which
always holds for the actual `datetime.now()`. -/
theorem c5_round_trips (now : Int)
    (h2 : minDay ≤ now - 2 ∧ now - 2 ≤ maxDay)
    (h1 : minDay ≤ now - 1 ∧ now - 1 ≤ maxDay)
    (h3 : minDay ≤ now - 1095 ∧ now - 1095 ≤ maxDay) :
    convert_relative_date now "2 hari lalu" = formatDate (now - 2) ∧
    convert_relative_date now "kemarin" = formatDate (now - 1) ∧
    convert_relative_date now "lebih dari 3 tahun lalu" = formatDate (now - 1095) ∧
    convert_relative_date now "minggu depan" = "minggu depan" := by
  refine ⟨?_, ?_, ?_, rfl⟩
  · show finishDate (now - 2) "2 hari lalu" = formatDate (now - 2)
    unfold finishDate
    rw [if_pos h2]
  · show finishDate (now - 1) "kemarin" = formatDate (now - 1)
    unfold finishDate
    rw [if_pos h1]
  · show finishDate (now - 1095) "lebih dari 3 tahun lalu" = formatDate (now - 1095)
    unfold finishDate
    rw [if_pos h3]

/-- Witness for C5 at the concrete day 20000 = 2024-10-04. -/
theorem c5_round_trips_witness :
    convert_relative_date 20000 "2 hari lalu" = formatDate (20000 - 2) ∧
    convert_relative_date 20000 "kemarin" = formatDate (20000 - 1) ∧
    convert_relative_date 20000 "lebih dari 3 tahun lalu" = formatDate (20000 - 1095) ∧
    convert_relative_date 20000 "minggu depan" = "minggu depan" :=
  c5_round_trips 20000 (by decide) (by decide) (by decide)

/-- **C10.** Keyword recognition is substring containment on the
lowercased input, not exact-phrase matching: any string whose lowercase
form contains `"kemarin"` but not `"hari ini"` normalizes to
`now − 1 day`, whatever surrounds the keyword.  (The range hypothesis
always holds for the actual `datetime.now()`.) -/
theorem c10_kemarin_substring (now : Int) (s : String)
    (hni : containsSub "hari ini" (pyLower s) = false)
    (hk : containsSub "kemarin" (pyLower s) = true)
    (hr : minDay ≤ now - 1 ∧ now - 1 ≤ maxDay) :
    convert_relative_date now s = formatDate (now - 1) := by
  unfold convert_relative_date daysAgo
  rw [hni, hk]
  simp only [Bool.false_eq_true, if_false, if_true]
  unfold finishDate
  rw [if_pos hr]

/-- Witness for C10: the keyword buried in surrounding text. -/
theorem c10_kemarin_substring_witness :
    convert_relative_date 20000 "Dibalas Kemarin oleh penjual" = formatDate (20000 - 1) :=
  c10_kemarin_substring 20000 "Dibalas Kemarin oleh penjual"
    (by decide) (by decide) (by decide)

/-- **C7.** Sentinel defaulting: a container whose star-rating element
is missing yields `rating = 0` (the record still being produced); a
missing name, body or date element yields `"N/A"` for that field in any
produced record; and the date sentinel `"N/A"` passes through the
normalizer unchanged (it matches no recognized pattern). -/
theorem c7_sentinel_defaults (now : Int) (c : Container) :
    (c.starAria = none → ∃ r, extractRecord now c = some r ∧ r.rating = 0) ∧
    (∀ r, extractRecord now c = some r →
      (c.nameText = none → r.name = "N/A") ∧
      (c.bodyText = none → r.text = "N/A") ∧
      (c.dateText = none → r.date = "N/A")) ∧
    convert_relative_date now "N/A" = "N/A" := by
  refine ⟨?_, ?_, rfl⟩
  · intro h
    unfold extractRecord
    rw [h]
    exact ⟨_, rfl, rfl⟩
  · intro r hr
    unfold extractRecord at hr
    rw [Option.map_eq_some'] at hr
    obtain ⟨v, -, hv⟩ := hr
    refine ⟨?_, ?_, ?_⟩ <;> intro h <;> rw [← hv] <;> rw [h] <;> rfl

/-- Witness for C7: the all-absent container yields the all-sentinel
record. -/
theorem c7_sentinel_defaults_witness :
    (∃ r, extractRecord 20000 ⟨none, none, none, none⟩ = some r ∧ r.rating = 0) ∧
    convert_relative_date 20000 "N/A" = "N/A" := by
  have h := c7_sentinel_defaults 20000 ⟨none, none, none, none⟩
  exact ⟨h.1 rfl, h.2.2⟩

/-- **C2 counterexample.** The claim asserts every extracted rating lies
in `[0,5]`, yet the code performs no clamping: a container whose
star-rating label is `"bintang 7"` yields a record with `rating = 7`,
which exceeds `5`.  (The claim's "0 whenever unparseable" part also
fails: a `'bintang'` label with a non-numeric last token raises instead
of yielding 0, as the C6 analysis below shows on a concrete snapshot.) -/
theorem c2_rating_counterexample :
    extractRecord 20000 ⟨some "bintang 7", none, none, none⟩ =
      some ⟨"N/A", 7, "N/A", "N/A"⟩ ∧
    ¬((extractRecord 20000 ⟨some "bintang 7", none, none, none⟩).getD
        ⟨"N/A", 0, "N/A", "N/A"⟩).rating ≤ 5 := by
  constructor
  · rfl
  · decide

/-- **C2 amended.** What the code actually guarantees about the rating
field: when the star element is absent or its label lacks the word
`'bintang'`, the record is produced with `rating = 0`; when the label
contains `'bintang'`, the rating is the final whitespace-delimited
token parsed by `int` — with no `[0,5]` clamping — if that parse
succeeds, and otherwise the uncaught `ValueError` aborts the record
(and with it the page's extraction) rather than defaulting to 0. -/
theorem c2_rating_amended (now : Int) (c : Container) :
    (containsSub "bintang" (c.starAria.getD "") = false →
      ∃ r, extractRecord now c = some r ∧ r.rating = 0) ∧
    (containsSub "bintang" (c.starAria.getD "") = true →
      ((∃ n, ((pySplit (c.starAria.getD "")).getLast?.bind pyInt) = some n ∧
          ∃ r, extractRecord now c = some r ∧ r.rating = n) ∨
       (((pySplit (c.starAria.getD "")).getLast?.bind pyInt) = none ∧
          extractRecord now c = none))) := by
  constructor
  · intro h
    unfold extractRecord ratingOfAria
    rw [h]
    exact ⟨_, rfl, rfl⟩
  · intro h
    have hra : ratingOfAria (c.starAria.getD "") =
        (pySplit (c.starAria.getD "")).getLast?.bind pyInt := by
      unfold ratingOfAria
      rw [h]
      cases (pySplit (c.starAria.getD "")).getLast? with
      | none => rfl
      | some tok => rfl
    cases hb : (pySplit (c.starAria.getD "")).getLast?.bind pyInt with
    | none =>
      right
      refine ⟨rfl, ?_⟩
      unfold extractRecord
      rw [hra, hb]
      rfl
    | some n =>
      left
      refine ⟨n, rfl, ?_⟩
      unfold extractRecord
      rw [hra, hb]
      exact ⟨_, rfl, rfl⟩

/-- Witness for the amended C2 at a realistic label `"bintang 5"`. -/
theorem c2_rating_amended_witness :
    (∃ n, ((pySplit "bintang 5").getLast?.bind pyInt) = some n ∧
       ∃ r, extractRecord 20000 ⟨some "bintang 5", none, none, none⟩ = some r ∧
         r.rating = n) ∨
    (((pySplit "bintang 5").getLast?.bind pyInt) = none ∧
       extractRecord 20000 ⟨some "bintang 5", none, none, none⟩ = none) :=
  (c2_rating_amended 20000 ⟨some "bintang 5", none, none, none⟩).2 (by decide)

/-- Unfolding equation of `extract_reviews_from_page` on a cons. -/
theorem extract_cons (now : Int) (a : Container) (rest : List Container) :
    extract_reviews_from_page now (a :: rest) =
      (match extractRecord now a with
       | none => none
       | some r =>
         match extract_reviews_from_page now rest with
         | none => none
         | some rs => some (r :: rs)) := rfl

/-- A well-formed container yields exactly the `recordTotal` record. -/
theorem extractRecord_total_of_wf (now : Int) (c : Container)
    (h : wellFormedC c) :
    extractRecord now c = some (recordTotal now c) := by
  unfold wellFormedC at h
  obtain ⟨v, hv⟩ := Option.isSome_iff_exists.mp h
  unfold extractRecord recordTotal
  rw [hv]
  rfl

/-- On a snapshot of well-formed containers, extraction succeeds and
returns the `recordTotal` of each container, in document order. -/
theorem extract_ok (now : Int) (articles : List Container)
    (h : ∀ c ∈ articles, wellFormedC c) :
    extract_reviews_from_page now articles =
      some (articles.map (recordTotal now)) := by
  induction articles with
  | nil => rfl
  | cons a rest ih =>
    have ha := extractRecord_total_of_wf now a (h a (List.mem_cons_self a rest))
    have hrest := ih (fun c hc => h c (List.mem_cons_of_mem a hc))
    rw [extract_cons, ha, hrest]
    rfl

/-- **C6 counterexample.** The claim quantifies over *every* page
snapshot: but a snapshot with one container whose star-rating label is
`"bintang penuh"` (marker word present, final token non-numeric) makes
the rating parse raise `ValueError`, which nothing catches — extraction
returns no records at all (modelled `none`) instead of the claimed one
record for one container. -/
theorem c6_extract_counterexample :
    ([(⟨some "bintang penuh", none, none, none⟩ : Container)].length = 1) ∧
    extract_reviews_from_page 20000
      [⟨some "bintang penuh", none, none, none⟩] = none :=
  ⟨rfl, rfl⟩

/-- **C6 amended.** Extraction completeness holds for snapshots whose
containers are well-formed (each present star label either lacks
`'bintang'` or has an integer final token — in particular whenever
fields are merely *missing*): extraction then returns exactly one
record per container, in document order, a field-free container
yielding the all-sentinel record.  A malformed star label instead
aborts the whole page's extraction with an uncaught `ValueError`. -/
theorem c6_extract_completeness (now : Int) (articles : List Container)
    (h : ∀ c ∈ articles, wellFormedC c) :
    ∃ rs, extract_reviews_from_page now articles = some rs ∧
      rs = articles.map (recordTotal now) ∧
      rs.length = articles.length :=
  ⟨articles.map (recordTotal now), extract_ok now articles h, rfl, by simp⟩

/-- Witness for the amended C6: three containers with assorted missing
fields yield exactly three records in order. -/
theorem c6_extract_completeness_witness :
    ∃ rs, extract_reviews_from_page 20000
        [⟨some "bintang 5", some "kemarin", some "Budi", some "Bagus"⟩,
         ⟨none, none, none, none⟩,
         ⟨some "", some "2 hari lalu", none, some "oke"⟩] = some rs ∧
      rs = [⟨some "bintang 5", some "kemarin", some "Budi", some "Bagus"⟩,
            (⟨none, none, none, none⟩ : Container),
            ⟨some "", some "2 hari lalu", none, some "oke"⟩].map (recordTotal 20000) ∧
      rs.length = [⟨some "bintang 5", some "kemarin", some "Budi", some "Bagus"⟩,
                   (⟨none, none, none, none⟩ : Container),
                   ⟨some "", some "2 hari lalu", none, some "oke"⟩].length :=
  c6_extract_completeness 20000
    [⟨some "bintang 5", some "kemarin", some "Budi", some "Bagus"⟩,
     ⟨none, none, none, none⟩,
     ⟨some "", some "2 hari lalu", none, some "oke"⟩] (by decide)

/-- The seed is a lower bound of a `foldl max`. -/
theorem foldl_max_le_seed (l : List Int) : ∀ n : Int, n ≤ l.foldl max n := by
  induction l with
  | nil => intro n; exact le_refl n
  | cons a t ih =>
    intro n
    exact le_trans (le_max_left n a) (ih (max n a))

/-- A `foldl max` is either the seed or a member of the list. -/
theorem foldl_max_mem (l : List Int) : ∀ n : Int,
    l.foldl max n = n ∨ l.foldl max n ∈ l := by
  induction l with
  | nil => intro n; left; rfl
  | cons a t ih =>
    intro n
    rcases ih (max n a) with h | h
    · rcases max_choice n a with hm | hm
      · left; rw [List.foldl_cons, h, hm]
      · right; rw [List.foldl_cons, h, hm]; exact List.mem_cons_self a t
    · right; exact List.mem_cons_of_mem a h

/-- Every member of the list is bounded by the `foldl max`. -/
theorem le_foldl_max (l : List Int) : ∀ (n m : Int), m ∈ l → m ≤ l.foldl max n := by
  induction l with
  | nil => intro n m hm; cases hm
  | cons a t ih =>
    intro n m hm
    rcases List.mem_cons.mp hm with rfl | hm
    · exact le_trans (le_max_right n m) (foldl_max_le_seed t (max n m))
    · exact ih (max n a) m hm

/-- **C3 counterexample.** The claim says the bound "is in every case at
least 1", but `str.isdigit` accepts `"0"` and `max([0])` is `0`: a
pagination control whose only numeric label is `"0"` makes
`get_last_page_number` return `0 < 1`. -/
theorem c3_bound_counterexample :
    get_last_page_number ["0"] = 0 ∧ ¬(1 ≤ get_last_page_number ["0"]) := by
  constructor
  · rfl
  · decide

/-- **C3 amended.** The bound equals the maximum of the numeric
page-button labels (non-numeric labels such as `"Next"` ignored) and is
`1` when no numeric label exists; it is at least `1` *provided* every
numeric label has a positive value — a label `"0"` (or `"00"`, …) makes
the bound `0`, so "at least 1 in every case" does not hold
unconditionally. -/
theorem c3_bound_amended (labels : List String) :
    (numericLabels labels = [] → get_last_page_number labels = 1) ∧
    (numericLabels labels ≠ [] →
      get_last_page_number labels ∈ numericLabels labels ∧
      ∀ n ∈ numericLabels labels, n ≤ get_last_page_number labels) ∧
    ((∀ n ∈ numericLabels labels, 1 ≤ n) → 1 ≤ get_last_page_number labels) := by
  refine ⟨?_, ?_, ?_⟩
  · intro h
    unfold get_last_page_number
    rw [h]
  · intro hne
    unfold get_last_page_number
    cases hnl : numericLabels labels with
    | nil => exact absurd hnl hne
    | cons n rest =>
      constructor
      · show List.foldl max n rest ∈ n :: rest
        rcases foldl_max_mem rest n with h | h
        · rw [h]; exact List.mem_cons_self n rest
        · exact List.mem_cons_of_mem n h
      · intro m hm
        show m ≤ List.foldl max n rest
        rcases List.mem_cons.mp hm with rfl | hm
        · exact foldl_max_le_seed rest m
        · exact le_foldl_max rest n m hm
  · intro hpos
    unfold get_last_page_number
    cases hnl : numericLabels labels with
    | nil => exact le_refl 1
    | cons n rest =>
      show (1 : Int) ≤ List.foldl max n rest
      exact le_trans (hpos n (by rw [hnl]; exact List.mem_cons_self n rest))
        (foldl_max_le_seed rest n)

/-- Witness for the amended C3 on the spec's own example labels. -/
theorem c3_bound_amended_witness :
    get_last_page_number ["1", "2", "3", "Next"] = 3 ∧
    1 ≤ get_last_page_number ["1", "2", "3", "Next"] ∧
    get_last_page_number [] = 1 :=
  ⟨by decide,
   (c3_bound_amended ["1", "2", "3", "Next"]).2.2 (by decide),
   (c3_bound_amended []).1 rfl⟩

/-- The expand loop attempts every button in order: the indices
attempted are exactly `i, i+1, …`, one per collected button,
independently of which clicks fail. -/
theorem expandLoop_attempts (outs : List Bool) : ∀ i : Nat,
    (expandLoop outs i).filterMap attemptedIdx = List.range' i outs.length := by
  induction outs with
  | nil => intro i; rfl
  | cons ok rest ih =>
    intro i
    cases ok with
    | false =>
      show List.filterMap attemptedIdx
          (ClickEv.failedSwallowed i :: expandLoop rest (i + 1)) =
        List.range' i (rest.length + 1)
      rw [List.filterMap_cons]
      simp only [attemptedIdx]
      rw [ih (i + 1)]
      rfl
    | true =>
      show List.filterMap attemptedIdx
          (ClickEv.clicked i :: ClickEv.settleSleep :: expandLoop rest (i + 1)) =
        List.range' i (rest.length + 1)
      rw [List.filterMap_cons, List.filterMap_cons]
      simp only [attemptedIdx]
      rw [ih (i + 1)]
      rfl

/-- **C9.** Expand-click fault isolation: when the expand controls are
present, every collected control is attempted exactly once, in order
(`filterMap attemptedIdx` of the click trace is `0, …, n−1` whatever
the pattern of failures — each failure is swallowed by the
`except Exception: continue` and the loop proceeds); and the page's
extraction result is unaffected by the click outcomes. -/
theorem c9_expand_click_isolation (env : ExpandEnv)
    (happ : env.appeared = true) :
    (click_all_expand_buttons env).filterMap attemptedIdx =
      List.range env.clicks.length ∧
    ∀ (now : Int) (articles : List Container),
      (processPageSnapshot now env articles).2 =
        extract_reviews_from_page now articles := by
  constructor
  · unfold click_all_expand_buttons
    rw [happ, if_pos rfl, expandLoop_attempts env.clicks 0, List.range_eq_range']
  · intro now articles
    rfl

/-- Witness for C9: three buttons, the middle click failing; all three
are attempted and extraction is unaffected. -/
theorem c9_expand_click_isolation_witness :
    (click_all_expand_buttons ⟨true, [true, false, true]⟩).filterMap attemptedIdx =
      List.range 3 ∧
    (processPageSnapshot 20000 ⟨true, [true, false, true]⟩
        [⟨none, none, none, none⟩]).2 =
      extract_reviews_from_page 20000 [⟨none, none, none, none⟩] := by
  have h := c9_expand_click_isolation ⟨true, [true, false, true]⟩ rfl
  exact ⟨h.1, h.2 20000 [⟨none, none, none, none⟩]⟩

/-- `writesOf` distributes over trace concatenation. -/
theorem writesOf_append (a b : List Ev) :
    writesOf (a ++ b) = writesOf a ++ writesOf b :=
  List.filterMap_append a b _

/-- The page loop never writes the CSV: whatever pages remain and
however each iteration ends, no `writeCsv` event is in its trace. -/
theorem pagesLoop_writes (env : Env) : ∀ (ps : List Nat) (acc : List Review),
    writesOf (pagesLoop env ps acc).1 = [] := by
  intro ps
  induction ps with
  | nil => intro acc; rfl
  | cons p rest ih =>
    intro acc
    unfold pagesLoop
    by_cases hi : env.interruptAt = some p
    · rw [if_pos hi]
      rfl
    · rw [if_neg hi]
      by_cases hp : p = 1
      · rw [if_pos hp]
        cases hx : extract_reviews_from_page env.now (env.pageArticles p) with
        | none => rfl
        | some rs => exact ih (acc ++ rs)
      · rw [if_neg hp]
        by_cases hb : env.pageBtnOk p = true
        · rw [if_pos hb]
          cases hx : extract_reviews_from_page env.now (env.pageArticles p) with
          | none => rfl
          | some rs => exact ih (acc ++ rs)
        · rw [if_neg hb]
          rfl

/-- **C4 (code bug).** The source has no `try/finally` around the run:
`browser_obj.close()` (line 156) is only reached after the CSV is
written, so it is *not* invoked on every exit path.  Evaluating the
model: a run whose initial mandatory wait times out aborts with no
`close` in its trace; a run interrupted by the user likewise ends with
no `close`; only the successful run closes the browser. -/
theorem c4_close_not_on_all_paths :
    ((scrape_reviews envTimeout).2 = Except.error PyErr.timeout ∧
      Ev.close ∉ (scrape_reviews envTimeout).1) ∧
    ((scrape_reviews envInterrupted).2 = Except.error PyErr.keyboardInterrupt ∧
      Ev.close ∉ (scrape_reviews envInterrupted).1) ∧
    ((scrape_reviews envSuccess).2 = Except.ok () ∧
      Ev.close ∈ (scrape_reviews envSuccess).1) := by
  refine ⟨⟨rfl, by decide⟩, ⟨rfl, by decide⟩, ⟨rfl, by decide⟩⟩

/-- **C8.** The sink is written exactly once, only after all pages are
processed: a successful run's trace is the page-processing prefix (which
contains no write) followed by exactly one `writeCsv` — whose rows are
the `name,rating,date,text` header plus one row per accumulated record,
in order — and the close; a run ending in any error (fatal timeout,
interruption, extraction failure) performs no write at all. -/
theorem c8_write_once_at_end (env : Env) :
    ((scrape_reviews env).2 = Except.ok () →
      ∃ revs, (pagesLoop env (pageIdxs env) []).2 = Except.ok revs ∧
        (scrape_reviews env).1 =
          (preEvs ++ (pagesLoop env (pageIdxs env) []).1) ++
            [Ev.writeCsv (csvRows revs), Ev.close] ∧
        writesOf (preEvs ++ (pagesLoop env (pageIdxs env) []).1) = []) ∧
    (∀ e, (scrape_reviews env).2 = Except.error e →
      writesOf (scrape_reviews env).1 = []) := by
  have hpl := pagesLoop_writes env (pageIdxs env) []
  constructor
  · intro hok
    unfold scrape_reviews at hok ⊢
    by_cases hi : env.initOk = true
    · rw [if_pos hi] at hok ⊢
      cases hres : (pagesLoop env (pageIdxs env) []).2 with
      | error e =>
        rw [hres] at hok
        exact absurd hok (by simp)
      | ok revs =>
        refine ⟨revs, rfl, rfl, ?_⟩
        rw [writesOf_append, hpl]
        rfl
    · rw [if_neg hi] at hok
      exact absurd hok (by simp)
  · intro e herr
    unfold scrape_reviews at herr ⊢
    by_cases hi : env.initOk = true
    · rw [if_pos hi] at herr ⊢
      cases hres : (pagesLoop env (pageIdxs env) []).2 with
      | error e2 =>
        show writesOf (preEvs ++ (pagesLoop env (pageIdxs env) []).1) = []
        rw [writesOf_append, hpl]
        rfl
      | ok revs =>
        rw [hres] at herr
        exact absurd herr (by simp)
    · rw [if_neg hi] at herr ⊢
      rfl

/-- Witness for C8: the successful two-page run writes exactly its
header-plus-rows CSV at the end of the trace. -/
theorem c8_write_once_at_end_witness :
    ∃ revs, (pagesLoop envSuccess (pageIdxs envSuccess) []).2 = Except.ok revs ∧
      (scrape_reviews envSuccess).1 =
        (preEvs ++ (pagesLoop envSuccess (pageIdxs envSuccess) []).1) ++
          [Ev.writeCsv (csvRows revs), Ev.close] ∧
      writesOf (preEvs ++ (pagesLoop envSuccess (pageIdxs envSuccess) []).1) = [] :=
  (c8_write_once_at_end envSuccess).1 rfl
